import Mathlib

/-!
Verification development for the aw-server HTTP API layer (`aw_server/api.py`).

The file shallowly embeds the request handlers of `api.py`:

* the session manager (`start_session`, `verify_session`, the module-level
  `SECURITY_ENABLED` flag),
* the bucket metadata endpoint (`BucketResource.get`),
* the event endpoints (`EventResource.get` / `EventResource.post`),
* the heartbeat endpoint (`HeartbeatResource.get` / `HeartbeatResource.post`),

together with the event store they delegate to (`app.db[bucket_id]`), whose
implementation is not part of this repository and is therefore modelled from
the specification (and pinned by the repository's own test-suite where the
specification is ambiguous).

Machine integers do not appear; timestamps and durations are modelled as `Int`
seconds and byte values as `Nat`.
-/

namespace AwServer

/-- An event of the store: optional store-assigned id, absolute timestamp
(seconds, `Int`), duration (seconds), and a `data` mapping (string keys to
string values), opaque to the store and compared structurally. -/
structure Event where
  id : Option Nat
  timestamp : Int
  duration : Int
  data : List (String × String)
deriving DecidableEq

/-- Association-list lookup, first binding wins (models Python `dict`
membership/access for string keys). -/
def alookup (k : String) : List (String × α) → Option α
  | [] => none
  | (k', v) :: rest => if k = k' then some v else alookup k rest

/-- Association-list update (models Python `d[k] = v`): replaces the first
binding of `k` in place, or appends a fresh binding at the end. -/
def aset (k : String) (v : α) : List (String × α) → List (String × α)
  | [] => [(k, v)]
  | (k', v') :: rest => if k = k' then (k, v) :: rest else (k', v') :: aset k v rest

/-- The whole mutable state touched by the handlers: the bucket database
`app.db` (bucket id to stored events, in insertion order), the module-level
`heartbeats` dict (client name to last check-in time, as stored by
`HeartbeatResource.post`), and the `SessionManager._sessions` dict
(session id to session key). -/
structure ServerState where
  db : List (String × List Event)
  heartbeats : List (String × Int)
  sessions : List (String × String)
deriving DecidableEq

/-- A decoded JSON request body as `EventResource.post` discriminates it:
a single dict (decoding to one event), a list (decoding to a list of
events), or anything else. -/
inductive Payload
  | obj (e : Event)
  | arr (es : List Event)
  | other
deriving DecidableEq

/-- The only error the spec's store surfaces: unknown bucket. -/
inductive ApiError
  | notFound
deriving DecidableEq

instance {α β : Type} [DecidableEq α] [DecidableEq β] : DecidableEq (Except α β) := fun x y =>
  match x, y with
  | .error a, .error b => if h : a = b then isTrue (by rw [h]) else isFalse (by simp [h])
  | .ok a, .ok b => if h : a = b then isTrue (by rw [h]) else isFalse (by simp [h])
  | .error _, .ok _ => isFalse (by simp)
  | .ok _, .error _ => isFalse (by simp)

/-! ### The event store (not in this repository; modelled from the spec) -/

/-- Descending-time order used to sort query results (most recent first). -/
def timeDesc (a b : Event) : Prop := b.timestamp ≤ a.timestamp

instance : DecidableRel timeDesc := fun _ _ => Int.decLe _ _

instance : IsTotal Event timeDesc :=
  ⟨fun a b => Int.le_total b.timestamp a.timestamp⟩

instance : IsTrans Event timeDesc :=
  ⟨fun _ _ _ hab hbc => le_trans hbc hab⟩

/-- Range predicate of the store's query: timestamp at or after `start?` and
at or before `end?` (missing bound imposes nothing). The end bound is
inclusive, as pinned by the repository's own test `test_get_events_interval`
(25 events over `[start, start + 1 day]` at 1-hour spacing). -/
def inRange (lo hi : Option Int) (e : Event) : Bool :=
  (match lo with
   | none => true
   | some s => decide (s ≤ e.timestamp)) &&
  (match hi with
   | none => true
   | some t => decide (e.timestamp ≤ t))

/-- Modelled from the spec: the event store's range query
(`get(bucket_id, start?, end?, limit?)`, spec §4.1/§4.3) — filter the stored
events to the range first, then sort by timestamp descending, then apply
`limit` (`-1` means unbounded, `n ≥ 0` keeps the first `n` results). The end
bound is inclusive (see `inRange`). -/
def get_events (events : List Event) (lo hi : Option Int) (limit : Int) : List Event :=
  let filtered := events.filter (inRange lo hi)
  let sorted := List.insertionSort timeDesc filtered
  if limit = -1 then sorted else sorted.take limit.toNat

/-- The query pipeline exactly as claim C4 words it, with an exclusive end
bound; written out to be compared against `get_events` (the modelled store). -/
def get_events_claimed_exclusive (events : List Event) (lo hi : Int) (limit : Int) : List Event :=
  let filtered := events.filter (fun e => decide (lo ≤ e.timestamp) && decide (e.timestamp < hi))
  let sorted := List.insertionSort timeDesc filtered
  if limit = -1 then sorted else sorted.take limit.toNat

/-- Modelled from the spec: the store's `insert` assigns an id and appends the
event; it never merges (spec §4.1, bulk path bypasses the merge engine). -/
def insert_event (es : List Event) (e : Event) : List Event :=
  es ++ [{ e with id := some es.length }]

/-! ### The request handlers of `api.py` -/

/-- `BucketResource.get`: `return app.db[bucket_id].metadata()`. The bucket
lookup on an unknown id fails with `NotFound` (store modelled from the spec);
the metadata payload itself is not part of this repository and is stood in
for by the bucket id and its event count. -/
def bucket_get (st : ServerState) (bucket_id : String) : Except ApiError (String × Nat) :=
  match alookup bucket_id st.db with
  | none => .error .notFound
  | some es => .ok (bucket_id, es.length)

/-- `EventResource.get`: `return app.db[bucket_id].get()` — delegates to the
store's query with no bounds. -/
def events_get (st : ServerState) (bucket_id : String) : Except ApiError (List Event) :=
  match alookup bucket_id st.db with
  | none => .error .notFound
  | some es => .ok (get_events es none none (-1))

/-- Modelled from the spec: the bucket query with explicit `start`, `end`,
`limit` parameters (spec §4.3; exercised by the repository's tests through the
client, the parameter plumbing is not under `aw_server/`). -/
def events_query (st : ServerState) (bucket_id : String) (lo hi : Option Int)
    (limit : Int) : Except ApiError (List Event) :=
  match alookup bucket_id st.db with
  | none => .error .notFound
  | some es => .ok (get_events es lo hi limit)

/-- The loop body of `EventResource.post` for a list payload:
`for event in data: app.db[bucket_id].insert(event)` — note the bucket is
looked up afresh for each element, so an empty list touches the store not at
all. -/
def events_post_loop (bucket_id : String) : ServerState → List Event → Except ApiError ServerState
  | st, [] => .ok st
  | st, e :: rest =>
    match alookup bucket_id st.db with
    | none => .error .notFound
    | some es =>
      events_post_loop bucket_id
        { st with db := aset bucket_id (insert_event es e) st.db } rest

/-- `EventResource.post`: a dict body is inserted as one event (status 200), a
list body is inserted element by element in order (status 200), any other body
inserts nothing and returns status 500. The insert path never consults any
merge logic. -/
def events_post (st : ServerState) (bucket_id : String) (body : Payload) :
    Except ApiError (ServerState × Nat) :=
  match body with
  | .obj e =>
    match alookup bucket_id st.db with
    | none => .error .notFound
    | some es => .ok ({ st with db := aset bucket_id (insert_event es e) st.db }, 200)
  | .arr es => (events_post_loop bucket_id st es).map fun st' => (st', 200)
  | .other => .ok (st, 500)

/-- Stand-in for `datetime.isoformat` (its formatting is never claimed). -/
def isoformat (t : Int) : String := toString t

/-- `HeartbeatResource.get`: returns the stored check-in time's isoformat
when the client has posted before, and otherwise the literal string
`"No heartbeat has been received for this client"`; either way a plain
value, which Flask serves with status 200. -/
def heartbeat_get (st : ServerState) (client_name : String) : String × Nat :=
  match alookup client_name st.heartbeats with
  | some t => (isoformat t, 200)
  | none => ("No heartbeat has been received for this client", 200)

/-- `HeartbeatResource.post`: `heartbeats[client_name] = datetime.now();
return "success", 200`. The request body and any pulsetime parameter are
never read (they are kept as arguments to make that explicit), the bucket
database is never touched, and `now` models `datetime.now()`. -/
def heartbeat_post (st : ServerState) (client_name : String) (now : Int)
    (_body : Payload) (_pulsetime : Int) : ServerState × String × Nat :=
  ({ st with heartbeats := aset client_name now st.heartbeats }, "success", 200)

/-! ### The session manager -/

/-- Module-level `SECURITY_ENABLED` flag of `api.py` (currently `False`). -/
def SECURITY_ENABLED : Bool := false

/-- One hex digit, lowercase, as produced by `binascii.hexlify`. -/
def hexChar (n : Nat) : Char :=
  if n < 10 then Char.ofNat (48 + n) else Char.ofNat (87 + n)

/-- The character list of `binascii.hexlify`: two lowercase hex digits per
byte, in order. -/
def hexChars : List Nat → List Char
  | [] => []
  | b :: rest => hexChar (b / 16) :: hexChar (b % 16) :: hexChars rest

/-- `binascii.hexlify(bytes).decode("utf8")` on a byte list. -/
def hexlify (bs : List Nat) : String := ⟨hexChars bs⟩

/-- `SessionManager.start_session`: derive the session key by hexlifying the
24 bytes drawn from `os.urandom(24)` (passed in as `randomBytes`), record it
in the session map under `session_id`, and return it. -/
def start_session (st : ServerState) (session_id : String) (randomBytes : List Nat) :
    ServerState × String :=
  let session_key := hexlify randomBytes
  ({ st with sessions := aset session_id session_key st.sessions }, session_key)

/-- `SessionManager.verify_session`: when the security flag is set, an unknown
session id fails and otherwise the stored key is compared against the supplied
one; when the flag is clear the function returns `True` unconditionally. -/
def verify_session (securityEnabled : Bool) (sessions : List (String × String))
    (session_id session_key : String) : Bool :=
  if securityEnabled then
    match alookup session_id sessions with
    | none => false
    | some k => k == session_key
  else
    true

/-! ### Concrete fixtures used by the witnesses and counterexamples -/

/-- The `data` mapping used throughout the repository's tests. -/
def hb_data : List (String × String) := [("label", "test")]

/-- First heartbeat of the test scenario (`t1 = 0`). -/
def hb_e1 : Event := ⟨none, 0, 0, hb_data⟩

/-- Second heartbeat of the test scenario (`t2 = 60`). -/
def hb_e2 : Event := ⟨none, 60, 0, hb_data⟩

/-- A server state with one (empty) bucket. -/
def hb_st : ServerState := ⟨[("test-bucket", [])], [], []⟩

/-- A server state with no buckets at all. -/
def empty_st : ServerState := ⟨[], [], []⟩

/-- Query start of the range-query scenario: 50 days (in seconds) before the
reference instant 0. -/
def query_start : Int := -4320000

/-- Query end: one day after `query_start`. -/
def query_end : Int := query_start + 86400

/-- 1000 events at 1-hour spacing starting at `query_start`, identical data. -/
def demo_events : List Event :=
  (List.range 1000).map fun i => ⟨some i, query_start + 3600 * (i : Int), 0, hb_data⟩

/-- A server state holding the 1000 demo events in one bucket. -/
def demo_st : ServerState := ⟨[("test-bucket", demo_events)], [], []⟩

/-- The 25 in-range demo events, most recent first. -/
def expected_25 : List Event :=
  (List.range 25).map fun i =>
    ⟨some (24 - i), query_start + 3600 * ((24 : Int) - (i : Int)), 0, hb_data⟩

/-- A three-event bucket content (timestamps out of order). -/
def tiny_events : List Event :=
  [⟨none, 5, 0, hb_data⟩, ⟨none, 1, 0, hb_data⟩, ⟨none, 9, 0, hb_data⟩]

/-- A server state holding `tiny_events` in bucket `"b"`. -/
def tiny_st : ServerState := ⟨[("b", tiny_events)], [], []⟩

/-! ### Helper lemmas -/

theorem alookup_aset_self (k : String) (v : α) (l : List (String × α)) :
    alookup k (aset k v l) = some v := by
  induction l with
  | nil => simp [aset, alookup]
  | cons hd tl ih =>
    obtain ⟨k', v'⟩ := hd
    by_cases hk : k = k'
    · simp [aset, alookup, hk]
    · simp [aset, alookup, hk, ih]

theorem aset_aset (k : String) (v w : α) (l : List (String × α)) :
    aset k w (aset k v l) = aset k w l := by
  induction l with
  | nil => simp [aset]
  | cons hd tl ih =>
    obtain ⟨k', v'⟩ := hd
    by_cases hk : k = k'
    · simp [aset, hk]
    · simp [aset, hk, ih]

theorem aset_eq_self (k : String) (v : α) (l : List (String × α))
    (h : alookup k l = some v) : aset k v l = l := by
  induction l with
  | nil => simp [alookup] at h
  | cons hd tl ih =>
    obtain ⟨k', v'⟩ := hd
    by_cases hk : k = k'
    · simp [alookup, hk] at h
      simp [aset, hk, h]
    · simp [alookup, hk] at h
      simp [aset, hk, ih h]

theorem events_post_loop_eq (bucket : String) (st : ServerState) (evs : List Event)
    (h : alookup bucket st.db = some evs) (es : List Event) :
    events_post_loop bucket st es =
      .ok { st with db := aset bucket (es.foldl insert_event evs) st.db } := by
  induction es generalizing st evs with
  | nil =>
    simp [events_post_loop, List.foldl, aset_eq_self bucket evs st.db h]
  | cons e rest ih =>
    have step := ih { st with db := aset bucket (insert_event evs e) st.db }
      (insert_event evs e) (alookup_aset_self bucket _ st.db)
    simp [events_post_loop, h, step, aset_aset]

theorem foldl_insert_event_data (es evs : List Event) :
    (es.foldl insert_event evs).map Event.data =
      evs.map Event.data ++ es.map Event.data := by
  induction es generalizing evs with
  | nil => simp
  | cons e rest ih =>
    simp [List.foldl, ih, insert_event, List.append_assoc]

theorem inRange_none_none (e : Event) : inRange none none e = true := rfl

theorem get_events_unbounded (es : List Event) :
    get_events es none none (-1) = List.insertionSort timeDesc es := by
  have hfilter : es.filter (inRange none none) = es :=
    List.filter_eq_self.mpr fun a _ => inRange_none_none a
  simp [get_events, hfilter]

/-! ### Claim theorems -/

/-- C1: the claim asserts that posting two heartbeats with equal `data`,
timestamps `t1 = 0 < t2 = 60` and `pulsetime = 70 ≥ t2 - t1` leaves exactly
one merged event (timestamp `t1`, duration `t2 - t1`) in the bucket. The
code's heartbeat endpoint (`HeartbeatResource.post`) never touches the bucket
database: after both posts the bucket still holds no events at all, and each
post answers `("success", 200)`. -/
theorem C1_heartbeat_no_merged_event :
    ((heartbeat_post (heartbeat_post hb_st "test-bucket" 100 (.obj hb_e1) 70).1
        "test-bucket" 160 (.obj hb_e2) 70).1.db = [("test-bucket", [])]) ∧
    ((heartbeat_post (heartbeat_post hb_st "test-bucket" 100 (.obj hb_e1) 70).1
        "test-bucket" 160 (.obj hb_e2) 70).2 = ("success", 200)) := by
  decide

/-- C2: the claim asserts that with `pulsetime = 10 < t2 - t1 = 60` the two
heartbeats end up as two distinct events. The code's heartbeat endpoint
inserts no events whatsoever: the bucket is still empty after both posts. -/
theorem C2_heartbeat_no_rejected_events :
    ((heartbeat_post (heartbeat_post hb_st "test-bucket" 100 (.obj hb_e1) 10).1
        "test-bucket" 160 (.obj hb_e2) 10).1.db = [("test-bucket", [])]) ∧
    ((heartbeat_post (heartbeat_post hb_st "test-bucket" 100 (.obj hb_e1) 10).1
        "test-bucket" 160 (.obj hb_e2) 10).2 = ("success", 200)) := by
  decide

/-- C3: the claim asserts that the same heartbeat delivered twice with
`pulsetime = 0` leaves the store with that one event, thanks to a `<=` merge
boundary. The code has no merge boundary at all: after the duplicated post
the bucket holds zero events (not one), and the only state change is the
global check-in map being overwritten with the latest server time. -/
theorem C3_heartbeat_no_idempotent_merge :
    ((heartbeat_post (heartbeat_post hb_st "test-bucket" 100 (.obj hb_e1) 0).1
        "test-bucket" 130 (.obj hb_e1) 0).1.db = [("test-bucket", [])]) ∧
    ((heartbeat_post (heartbeat_post hb_st "test-bucket" 100 (.obj hb_e1) 0).1
        "test-bucket" 130 (.obj hb_e1) 0).1.heartbeats = [("test-bucket", 130)]) := by
  decide

/-- C9: with the module-level `SECURITY_ENABLED` flag at its current value
`False`, `verify_session` returns `True` for every session map, session id
and session key — so its result is independent of both the stored sessions
and the supplied credentials; with the flag `True` it returns `True` exactly
when the session id is present and the stored key equals the supplied key. -/
theorem C9_verify_session_flag :
    SECURITY_ENABLED = false ∧
    (∀ sessions session_id session_key,
      verify_session SECURITY_ENABLED sessions session_id session_key = true) ∧
    (∀ sessions sessions' id1 id2 k1 k2,
      verify_session SECURITY_ENABLED sessions id1 k1 =
        verify_session SECURITY_ENABLED sessions' id2 k2) ∧
    (∀ sessions session_id session_key,
      verify_session true sessions session_id session_key = true ↔
        alookup session_id sessions = some session_key) := by
  refine ⟨rfl, fun _ _ _ => rfl, fun _ _ _ _ _ _ => rfl, fun sessions session_id session_key => ?_⟩
  unfold verify_session
  rw [if_pos rfl]
  cases h : alookup session_id sessions with
  | none => simp [h]
  | some k => simp [h]

/-- C10: a heartbeat-status GET for a client that never posted returns the
literal string `"No heartbeat has been received for this client"` with
status 200 (not an error), and every heartbeat POST overwrites that client's
entry in the global check-in map with the current server time and returns
`("success", 200)`, independent of the request body and pulsetime. -/
theorem C10_heartbeat_status_endpoint (st : ServerState) (client : String)
    (h : alookup client st.heartbeats = none) (now : Int) :
    heartbeat_get st client = ("No heartbeat has been received for this client", 200) ∧
    (∀ body pulsetime, heartbeat_post st client now body pulsetime =
      ({ st with heartbeats := aset client now st.heartbeats }, "success", 200)) ∧
    (∀ body body' pulsetime pulsetime',
      heartbeat_post st client now body pulsetime =
        heartbeat_post st client now body' pulsetime') ∧
    (∀ body pulsetime,
      alookup client (heartbeat_post st client now body pulsetime).1.heartbeats = some now) := by
  refine ⟨?_, fun _ _ => rfl, fun _ _ _ _ => rfl, fun _ _ => ?_⟩
  · simp [heartbeat_get, h]
  · exact alookup_aset_self client now st.heartbeats

/-- C10 witness: the theorem at the empty state, client `"watcher"`, time 42. -/
theorem C10_witness :
    heartbeat_get empty_st "watcher" =
      ("No heartbeat has been received for this client", 200) :=
  (C10_heartbeat_status_endpoint empty_st "watcher" rfl 42).1

/-- C5: querying a bucket with `limit = -1` returns all of its stored events
with no truncation (a permutation of the stored list, of the same length),
sorted by timestamp descending. -/
theorem C5_unbounded_query (st : ServerState) (bucket : String) (es : List Event)
    (h : alookup bucket st.db = some es) :
    ∃ r, events_query st bucket none none (-1) = .ok r ∧
      r.Perm es ∧ List.Sorted timeDesc r ∧ r.length = es.length := by
  refine ⟨List.insertionSort timeDesc es, ?_, ?_, ?_, ?_⟩
  · simp [events_query, h, get_events_unbounded]
  · exact List.perm_insertionSort timeDesc es
  · exact List.sorted_insertionSort timeDesc es
  · exact (List.perm_insertionSort timeDesc es).length_eq

/-- C5 witness: the theorem at a concrete three-event bucket. -/
theorem C5_witness :
    ∃ r, events_query tiny_st "b" none none (-1) = .ok r ∧
      r.Perm tiny_events ∧ List.Sorted timeDesc r ∧ r.length = tiny_events.length :=
  C5_unbounded_query tiny_st "b" tiny_events rfl

/-- C6 counterexample: two operations addressed at the bucket id
`"ghost-bucket"`, which does not exist in the (empty) store, that do not fail
with `NotFound`: a heartbeat POST succeeds with `("success", 200)` (the
endpoint never consults the bucket database), and an events POST whose body
is the empty array returns status 200 (its per-element loop never performs
the bucket lookup). -/
theorem C6_counterexample :
    heartbeat_post empty_st "ghost-bucket" 0 .other 0 =
      (⟨[], [("ghost-bucket", 0)], []⟩, "success", 200) ∧
    events_post empty_st "ghost-bucket" (.arr []) = .ok (empty_st, 200) :=
  ⟨rfl, rfl⟩

/-- C6 (amended): bucket metadata GET, events GET, the parameterised bucket
query, and events POST with a dict body or a non-empty array body all fail
with `NotFound` on an unknown bucket id; the heartbeat endpoint never
consults the bucket store and succeeds for any id, and an events POST with an
empty array body performs no store access and returns 200 (see the
counterexample). -/
theorem C6_unknown_bucket (st : ServerState) (bucket : String)
    (h : alookup bucket st.db = none) (e : Event) (es : List Event) (hes : es ≠ []) :
    bucket_get st bucket = .error .notFound ∧
    events_get st bucket = .error .notFound ∧
    (∀ lo hi lim, events_query st bucket lo hi lim = .error .notFound) ∧
    events_post st bucket (.obj e) = .error .notFound ∧
    events_post st bucket (.arr es) = .error .notFound := by
  refine ⟨?_, ?_, fun lo hi lim => ?_, ?_, ?_⟩
  · simp [bucket_get, h]
  · simp [events_get, h]
  · simp [events_query, h]
  · simp [events_post, h]
  · cases es with
    | nil => exact absurd rfl hes
    | cons e' rest => simp [events_post, events_post_loop, h, Except.map]

/-- C6 witness: the amended theorem at the empty store and bucket id
`"nope"`. -/
theorem C6_witness :
    bucket_get empty_st "nope" = .error .notFound ∧
    events_get empty_st "nope" = .error .notFound ∧
    (∀ lo hi lim, events_query empty_st "nope" lo hi lim = .error .notFound) ∧
    events_post empty_st "nope" (.obj hb_e1) = .error .notFound ∧
    events_post empty_st "nope" (.arr [hb_e1]) = .error .notFound :=
  C6_unknown_bucket empty_st "nope" rfl hb_e1 [hb_e1] (by simp)

/-- C7: `EventResource.post` on an existing bucket inserts a dict body as one
appended event with status 200; inserts an array body element by element in
order (the resulting event-data sequence is the old one followed by the
posted ones, in order) with status 200; and for any other body shape inserts
nothing and returns status 500. Each insert appends unconditionally —
`insert_event` always grows the bucket by exactly one, so the path never
merges. -/
theorem C7_events_post_dispatch (st : ServerState) (bucket : String) (evs : List Event)
    (h : alookup bucket st.db = some evs) (e : Event) (es : List Event) :
    events_post st bucket (.obj e) =
      .ok ({ st with db := aset bucket (insert_event evs e) st.db }, 200) ∧
    events_post st bucket (.arr es) =
      .ok ({ st with db := aset bucket (es.foldl insert_event evs) st.db }, 200) ∧
    events_post st bucket .other = .ok (st, 500) ∧
    ((es.foldl insert_event evs).map Event.data = evs.map Event.data ++ es.map Event.data) ∧
    (insert_event evs e).length = evs.length + 1 := by
  refine ⟨?_, ?_, rfl, foldl_insert_event_data es evs, by simp [insert_event]⟩
  · simp [events_post, h]
  · simp [events_post, events_post_loop_eq bucket st evs h es, Except.map]

/-- C7 witness: the theorem at a concrete three-event bucket. -/
theorem C7_witness :
    events_post tiny_st "b" (.obj hb_e1) =
      .ok ({ tiny_st with db := aset "b" (insert_event tiny_events hb_e1) tiny_st.db }, 200) :=
  (C7_events_post_dispatch tiny_st "b" tiny_events rfl hb_e1 [hb_e2]).1

set_option maxRecDepth 10000 in
/-- C4 counterexample: on the claim's own concrete instance (1000 events at
1-hour spacing from `query_start`, querying `query_start .. query_start + 1
day` with limit 50) the pipeline worded by the claim — filter with an
EXCLUSIVE end bound, sort descending, truncate — returns 24 events, while the
store (whose end bound is inclusive, as the repository's test
`test_get_events_interval` demands) returns the 25 events the claim also
asserts; so the claim's "exclusive end" and its "returns exactly 25 events"
contradict each other on the code. -/
theorem C4_exclusive_end_counterexample :
    (get_events_claimed_exclusive demo_events query_start query_end 50).length = 24 ∧
    events_query demo_st "test-bucket" (some query_start) (some query_end) 50 =
      .ok expected_25 ∧
    expected_25.length = 25 := by
  decide

set_option maxRecDepth 10000 in
/-- C4 (amended): a bucket query with `start`, `end` and `limit ≥ 0` is
computed by filtering the stored events to the range with INCLUSIVE end
bound, then sorting the survivors by timestamp descending, then truncating to
the first `limit` entries; the result is sorted descending and lies inside
the range. In particular, for 1000 events at 1-hour spacing starting 50 days
in the past, querying one day from the start with limit 50 returns exactly
the 25 in-range events, most recent first. -/
theorem C4_range_query_amended (st : ServerState) (bucket : String) (es : List Event)
    (s t : Int) (lim : Nat) (h : alookup bucket st.db = some es) :
    events_query st bucket (some s) (some t) (lim : Int) =
      .ok ((List.insertionSort timeDesc (es.filter (inRange (some s) (some t)))).take lim) ∧
    List.Sorted timeDesc
      ((List.insertionSort timeDesc (es.filter (inRange (some s) (some t)))).take lim) ∧
    (∀ e ∈ (List.insertionSort timeDesc (es.filter (inRange (some s) (some t)))).take lim,
      s ≤ e.timestamp ∧ e.timestamp ≤ t) ∧
    events_query demo_st "test-bucket" (some query_start) (some query_end) 50 =
      .ok expected_25 ∧
    expected_25.length = 25 ∧ List.Sorted timeDesc expected_25 := by
  refine ⟨?_, ?_, ?_, by decide, by decide, by decide⟩
  · simp only [events_query, h, get_events]
    rw [if_neg (by omega), Int.toNat_natCast]
  · exact List.Pairwise.sublist (List.take_sublist _ _)
      (List.sorted_insertionSort timeDesc _)
  · intro e he
    have h1 : e ∈ List.insertionSort timeDesc (es.filter (inRange (some s) (some t))) :=
      List.mem_of_mem_take he
    have h2 : e ∈ es.filter (inRange (some s) (some t)) := by
      simpa using h1
    have h3 := (List.mem_filter.mp h2).2
    simp only [inRange, Bool.and_eq_true, decide_eq_true_eq] at h3
    exact h3

/-- C4 witness: the amended theorem at the demo store, bucket
`"test-bucket"`, the demo range and limit 50. -/
theorem C4_witness :
    events_query demo_st "test-bucket" (some query_start) (some query_end)
        ((50 : Nat) : Int) =
      .ok ((List.insertionSort timeDesc
        (demo_events.filter (inRange (some query_start) (some query_end)))).take 50) :=
  (C4_range_query_amended demo_st "test-bucket" demo_events query_start query_end 50 rfl).1

theorem hexChar_injOn : ∀ a < 16, ∀ b < 16, hexChar a = hexChar b → a = b := by
  decide

theorem hexChars_length : ∀ bs : List Nat, (hexChars bs).length = 2 * bs.length := by
  intro bs
  induction bs with
  | nil => rfl
  | cons b rest ih => simp [hexChars, ih]; omega

theorem hexChars_injOn :
    ∀ bs bs' : List Nat, (∀ b ∈ bs, b < 256) → (∀ b ∈ bs', b < 256) →
      bs.length = bs'.length → hexChars bs = hexChars bs' → bs = bs' := by
  intro bs
  induction bs with
  | nil =>
    intro bs' _ _ hlen _
    cases bs' with
    | nil => rfl
    | cons b' rest' => simp at hlen
  | cons b rest ih =>
    intro bs' hb hb' hlen heq
    cases bs' with
    | nil => simp at hlen
    | cons b' rest' =>
      simp only [hexChars, List.cons.injEq] at heq
      obtain ⟨hhi, hlo, htl⟩ := heq
      have hblt : b < 256 := hb b (by simp)
      have hblt' : b' < 256 := hb' b' (by simp)
      have hdiv : b / 16 = b' / 16 :=
        hexChar_injOn (b / 16) (by omega) (b' / 16) (by omega) hhi
      have hmod : b % 16 = b' % 16 :=
        hexChar_injOn (b % 16) (by omega) (b' % 16) (by omega) hlo
      have hbb : b = b' := by omega
      have hrest : rest = rest' := by
        refine ih rest' (fun x hx => hb x (by simp [hx])) (fun x hx => hb' x (by simp [hx])) ?_ htl
        simpa using hlen
      rw [hbb, hrest]

theorem hexlify_length (bs : List Nat) : (hexlify bs).length = 2 * bs.length := by
  simpa [hexlify, String.length] using hexChars_length bs

/-- C8: `start_session` returns exactly the hex encoding of the 24 random
bytes drawn for the call — a 48-character string — and records that key in
the session map under the given session id. The encoding is injective on
24-byte inputs, so the key carries the full 24 bytes of entropy of the
random input. -/
theorem C8_start_session (st : ServerState) (session_id : String) (bs : List Nat)
    (h24 : bs.length = 24) (hbytes : ∀ b ∈ bs, b < 256) :
    (start_session st session_id bs).2 = hexlify bs ∧
    ((start_session st session_id bs).2).length = 48 ∧
    alookup session_id (start_session st session_id bs).1.sessions =
      some ((start_session st session_id bs).2) ∧
    (∀ bs' : List Nat, bs'.length = 24 → (∀ b ∈ bs', b < 256) →
      hexlify bs' = hexlify bs → bs' = bs) := by
  refine ⟨rfl, ?_, ?_, ?_⟩
  · rw [show (start_session st session_id bs).2 = hexlify bs from rfl, hexlify_length, h24]
  · exact alookup_aset_self session_id (hexlify bs) st.sessions
  · intro bs' h24' hbytes' hkey
    have hchars : hexChars bs' = hexChars bs := congrArg String.data hkey
    exact hexChars_injOn bs' bs hbytes' hbytes (by omega) hchars

/-- C8 witness: the theorem at a concrete 24-byte random input. -/
theorem C8_witness :
    ((start_session empty_st "test-session" (List.replicate 24 171)).2).length = 48 :=
  (C8_start_session empty_st "test-session" (List.replicate 24 171) (by decide)
    (by decide)).2.1

end AwServer
